import Mathlib

/-!
Verification of the photo classification and placement pipeline of
`ExifPhotoSorter.py`.

Modelling conventions:
* Python floats are modelled as rationals (`ℚ`); none of the verified
  properties depends on rounding.
* Python `Optional[T]` is `Option T`; Python `None` is `none`.
* Python truthiness is made explicit where the source branches on it
  (`None` and `""` are falsy strings; `0.0` is a falsy float; a non-empty
  tuple is truthy).
* External collaborators (the EXIF byte-parser, the network geocoding
  backend, the geodesic distance of `geopy`, the raw copy/move
  primitives) are parameters of the embedded functions.
* Exceptions that the source catches are modelled by the value the
  handler produces; the one exception that is raised *inside* the
  per-photo pipeline (`AttributeError` from `_apply_location_filters(None)`)
  is modelled explicitly in `process_one_photo`.
-/

namespace ExifPhotoSorter

/-- Calendar date. Only the fields read by the `%Y`, `%m`, `%d` `strftime`
directives are modelled (the source's `datetime` also carries a time of
day, which no verified property inspects). -/
structure Date where
  year : Nat
  month : Nat
  day : Nat
deriving DecidableEq

/-- The configuration options consumed by the embedded core (section and
option names follow `config.ini`; `configparser` interpolation has already
turned `%%` into `%` in `date_format`). -/
structure Config where
  sort_by_location : Bool
  sort_by_date : Bool
  group_by_country : Bool
  group_by_state : Bool
  group_by_city : Bool
  date_format : String
  unsortable_folder : String
  skip_duplicates : Bool
  duplicate_suffix : String
  copy_files : Bool
  cache_geocoding_results : Bool
deriving DecidableEq

/-- Left-pad the decimal rendering of `n` with zeros to width `w`
(Python's zero-padded `strftime` fields). -/
def zpad (w : Nat) (n : Nat) : String :=
  let s := Nat.repr n
  String.mk (List.replicate (w - s.length) '0') ++ s

/-- Python `datetime.strftime` restricted to the directives the verified
scenarios use (`%Y`, `%m`, `%d`, `%%`); all other characters are copied
verbatim. -/
def strftimeChars (d : Date) : List Char → List Char
  | [] => []
  | '%' :: 'Y' :: rest => (zpad 4 d.year).data ++ strftimeChars d rest
  | '%' :: 'm' :: rest => (zpad 2 d.month).data ++ strftimeChars d rest
  | '%' :: 'd' :: rest => (zpad 2 d.day).data ++ strftimeChars d rest
  | '%' :: '%' :: rest => '%' :: strftimeChars d rest
  | c :: rest => c :: strftimeChars d rest

/-- Python `photo_date.strftime(fmt)`. -/
def strftime (fmt : String) (d : Date) : String :=
  String.mk (strftimeChars d fmt.data)

/-- `posixpath.join` on two components: an absolute second component
replaces the first; otherwise a separator is inserted unless the first
component is empty or already ends in one. -/
def joinPath (a b : String) : String :=
  if b.data.head? = some '/' then b
  else if a = "" ∨ a.data.getLast? = some '/' then a ++ b
  else a ++ "/" ++ b

/-- Python `s.split(', ')` on character lists (the only separator the
source ever splits location strings on): scan left to right, cutting at
each occurrence of the two-character separator. -/
def splitCS (acc : List Char) : List Char → List (List Char)
  | [] => [acc.reverse]
  | ',' :: ' ' :: rest => acc.reverse :: splitCS [] rest
  | c :: rest => splitCS (c :: acc) rest

/-- Python `city_rgeo.split(', ')`. -/
def pySplitCS (s : String) : List String :=
  (splitCS [] s.data).map String.mk

/-- Python `', '.join(xs)`. -/
def pyJoinCS : List String → String
  | [] => ""
  | x :: xs => xs.foldl (fun acc y => acc ++ ", " ++ y) x

/-- `PhotoProcessor._apply_location_filters`: split the geocoded
`city, state, country` string and re-join it according to the grouping
flags. `location_parts[-1]` is total because Python `split` never returns
an empty list; `location_parts[-2:]` keeps the last two parts. The
`group_by_city` branch and the final `else` branch of the source are
identical (both reverse the parts), so they are rendered as one branch. -/
def apply_location_filters (cfg : Config) (city_rgeo : String) : String :=
  let location_parts := pySplitCS city_rgeo
  if cfg.group_by_country then location_parts.getLastD ""
  else if cfg.group_by_state then
    pyJoinCS (location_parts.drop (location_parts.length - 2))
  else pyJoinCS location_parts.reverse

/-- `PhotoProcessor._create_output_path` (the `os.makedirs` side effect is
idempotent directory creation and is not part of the returned value). -/
def create_output_path (cfg : Config) (output_directory city : String)
    (photo_date : Option Date) : String :=
  match cfg.sort_by_date, photo_date with
  | true, some d =>
    let date_dir := strftime cfg.date_format d
    if cfg.sort_by_location then joinPath (joinPath output_directory city) date_dir
    else joinPath output_directory date_dir
  | _, _ =>
    if cfg.sort_by_location then joinPath output_directory city
    else output_directory

/-- `PhotoProcessor._create_unsortable_path`. -/
def create_unsortable_path (cfg : Config) (output_directory : String)
    (photo_date : Option Date) : String :=
  let unsortable_dir := joinPath output_directory cfg.unsortable_folder
  match cfg.sort_by_date, photo_date with
  | true, some d => joinPath unsortable_dir (strftime cfg.date_format d)
  | _, _ => unsortable_dir

example : pySplitCS "New York, New York, United States" =
    ["New York", "New York", "United States"] := by decide

example : apply_location_filters
    ⟨true, true, false, false, true, "%Y-%m-%d", "Unsortable", true, "_duplicate", true, true⟩
    "New York, New York, United States" = "United States, New York, New York" := by decide

example : strftime "%Y-%m-%d" ⟨2024, 3, 15⟩ = "2024-03-15" := by decide

/-! ## Geolocator -/

/-- A coordinate pair `(latitude, longitude)`. -/
abbrev Coord := ℚ × ℚ

/-- The geocode cache. The source keeps a JSON-backed Python `dict` that
maps the string key `"lat, lon"` to a place name and iterates it in
insertion order; since Python `repr`/`float` round-trips exactly, the
parsed key is modelled directly as the coordinate pair, and the dict as
its ordered key-value list. -/
abbrev GeoCache := List (Coord × String)

/-- Python truthiness of an `Optional[str]`: `None` and `""` are falsy. -/
def truthyStr : Option String → Bool
  | none => false
  | some s => s ≠ ""

/-- `Geolocator._is_cached_location_nearby`: scan the cache entries in
order and return the place name of the first entry whose coordinate lies
within `cache_distance_threshold` kilometres (by `geopy`'s `geodesic`
distance, the parameter `dist`) of the query. -/
def is_cached_location_nearby (dist : Coord → Coord → ℚ) (threshold : ℚ)
    (c : Coord) : GeoCache → Option String
  | [] => none
  | (cached, location_str) :: rest =>
    if dist c cached ≤ threshold then some location_str
    else is_cached_location_nearby dist threshold c rest

/-- Python dict assignment `cache[key] = value`: when the key is present
its value is replaced in place (CPython preserves the insertion
position), otherwise the pair is appended. -/
def dictInsert (k : Coord) (v : String) : GeoCache → GeoCache
  | [] => [(k, v)]
  | (k0, v0) :: rest =>
    if k0 = k then (k0, v) :: rest else (k0, v0) :: dictInsert k v rest

/-- The observable outcome of one `reverse_geocode` call: the Python
return value, the cache afterwards, and how many calls reached the
rate-limited network backend. -/
structure GeoResult where
  res : Option String
  cache : GeoCache
  backend_calls : Nat
deriving DecidableEq

/-- `Geolocator.reverse_geocode`. The network collaborator is the
parameter `backend`: `backend c = none` models both a backend
exception/timeout and a `None` geocoder response (either way the source
returns `None` without touching the cache), and `backend c = some s`
models a response whose `_parse_location` join of the city/state/country
fields is `s` (possibly `""` when all fields are absent). On a truthy
result with caching enabled the entry is stored and `_save_cache` runs
(its file-system trace is modelled separately by `save_cache`). -/
def reverse_geocode (dist : Coord → Coord → ℚ) (threshold : ℚ)
    (caching : Bool) (backend : Coord → Option String)
    (cache : GeoCache) (c : Coord) : GeoResult :=
  let cached_location :=
    if caching then is_cached_location_nearby dist threshold c cache else none
  if truthyStr cached_location then
    { res := cached_location, cache := cache, backend_calls := 0 }
  else
    match backend c with
    | none => { res := none, cache := cache, backend_calls := 1 }
    | some location_str =>
      if location_str ≠ "" then
        { res := some location_str,
          cache := if caching then dictInsert c location_str cache else cache,
          backend_calls := 1 }
      else
        { res := some location_str, cache := cache, backend_calls := 1 }

/-! ## Cache persistence (`Geolocator._save_cache`) -/

/-- File-system operations, as issued by the cache-persistence code.
Opening a file in mode `'w'` truncates it. -/
inductive FsOp where
  | openTrunc (path : String)
  | write (path : String) (data : String)
  | closeFile (path : String)
  | rename (src dst : String)
deriving DecidableEq

/-- `Geolocator._save_cache`: `with open(self.cache_file, 'w') as f:
json.dump(self.location_cache, f)` — open the cache file itself for
truncating write and dump the serialized cache into it. -/
def save_cache (cache_file : String) (serialized : String) : List FsOp :=
  [FsOp.openTrunc cache_file, FsOp.write cache_file serialized,
   FsOp.closeFile cache_file]

/-- Content of the cache file after running a list of operations, starting
from `content`. Every operation `save_cache` emits targets the cache file
itself, so a single-file view suffices; a `rename` onto the tracked file
would replace its content, but no rename occurs in the emitted trace. -/
def runFs (content : String) : List FsOp → String
  | [] => content
  | FsOp.openTrunc _ :: rest => runFs "" rest
  | FsOp.write _ d :: rest => runFs (content ++ d) rest
  | FsOp.closeFile _ :: rest => runFs content rest
  | FsOp.rename _ _ :: rest => runFs content rest

/-- Content of the cache file if the process crashes after the first `k`
operations of the trace. -/
def diskAt (old : String) (ops : List FsOp) (k : Nat) : String :=
  runFs old (ops.take k)

/-- Whether a trace contains any rename at all. -/
def hasRename (ops : List FsOp) : Bool :=
  ops.any fun op => match op with
    | FsOp.rename _ _ => true
    | _ => false

/-! ## ExifExtractor -/

/-- A decoded GPS attribute value as the `exif` library hands it to
`get_gps_coordinates`: either a single float or a
degrees/minutes/seconds triple. -/
inductive GpsVal where
  | fl (x : ℚ)
  | dms (d m s : ℚ)
deriving DecidableEq

/-- Python truthiness of a GPS attribute value: a float is falsy exactly
at `0.0`; a degrees/minutes/seconds value is a non-empty tuple and is
always truthy. -/
def GpsVal.truthy : GpsVal → Bool
  | .fl x => x ≠ 0
  | .dms _ _ _ => true

/-- `ExifExtractor._convert_to_decimal_degrees` (the `TypeError`/
`IndexError` handler is unreachable for a well-formed triple). -/
def convert_to_decimal_degrees (d m s : ℚ) (ref : String) : ℚ :=
  let decimal_degrees := d + m / 60 + s / 3600
  if ref = "S" ∨ ref = "W" then -decimal_degrees else decimal_degrees

/-- The image object as seen by `get_gps_coordinates`: the `has_exif`
flag and the four GPS attributes, each `none` when the attribute is
absent (access then raises `AttributeError`, which the source catches). -/
structure Img where
  has_exif : Bool
  gps_latitude : Option GpsVal
  gps_longitude : Option GpsVal
  gps_latitude_ref : Option String
  gps_longitude_ref : Option String
deriving DecidableEq

/-- `ExifExtractor.get_gps_coordinates`. `image = none` models the Python
`None` argument (falsy). The `AttributeError`/`TypeError`/`IndexError`
handler returns `(None, None)`, as does the fall-through after the
format warning. -/
def get_gps_coordinates (use_exif_gps : Bool) (image : Option Img) :
    Option ℚ × Option ℚ :=
  match image with
  | none => (none, none)
  | some img =>
    if ¬ img.has_exif then (none, none)
    else if use_exif_gps then
      match img.gps_latitude, img.gps_longitude with
      | some latitude, some longitude =>
        if ¬ (latitude.truthy ∧ longitude.truthy) then (none, none)
        else
          match latitude, longitude with
          | .dms d1 m1 s1, .dms d2 m2 s2 =>
            match img.gps_latitude_ref, img.gps_longitude_ref with
            | some lat_ref, some lon_ref =>
              (some (convert_to_decimal_degrees d1 m1 s1 lat_ref),
               some (convert_to_decimal_degrees d2 m2 s2 lon_ref))
            | _, _ => (none, none)
          | .fl la, .fl lo => (some la, some lo)
          | _, _ => (none, none)
      | _, _ => (none, none)
    else (none, none)

/-! ## PhotoProcessor: placement (`_copy_photo` / `_move_photo`) -/

/-- `posixpath.splitext` specialised to a basename: the name splits at
its last dot provided some character before that dot is not itself a dot
(so dotfiles such as `.bashrc` have no extension). `last_dot_aux`
computes the index of the last `'.'`. -/
def last_dot_aux : List Char → Nat → Option Nat → Option Nat
  | [], _, best => best
  | c :: rest, i, best =>
    last_dot_aux rest (i + 1) (if c = '.' then some i else best)

/-- `os.path.splitext(photo_name)` for a basename (no `'/'` present). -/
def splitext (name : String) : String × String :=
  match last_dot_aux name.data 0 none with
  | none => (name, "")
  | some d =>
    if (name.data.take d).all (fun c => c = '.') then (name, "")
    else (String.mk (name.data.take d), String.mk (name.data.drop d))

/-- The `while os.path.exists(...): i += 1` search of `_copy_photo` /
`_move_photo`, rendered with an explicit step budget: starting at `i`,
return the first index whose candidate name `pre ++ str(i) ++ ext` is not
among the existing names, or the index reached when the budget runs out.
The theorems below always supply a budget large enough that a free
candidate is found, which is exactly when the source's loop terminates. -/
def find_free_suffix (existing : List String) (pre ext : String) :
    Nat → Nat → Nat
  | 0, i => i
  | fuel + 1, i =>
    if pre ++ Nat.repr i ++ ext ∈ existing then
      find_free_suffix existing pre ext fuel (i + 1)
    else i

/-- The candidate file name with duplicate suffix `i`:
`f"{base}{duplicate_suffix}{i}{ext}"` of the source. -/
def candName (cfg : Config) (photo_name : String) (i : Nat) : String :=
  (splitext photo_name).1 ++ cfg.duplicate_suffix ++ Nat.repr i ++
    (splitext photo_name).2

/-- The duplicate-handling destination logic shared verbatim by
`PhotoProcessor._copy_photo` and `PhotoProcessor._move_photo`. `existing`
is the list of file names already present in the destination directory
(`os.path.exists(os.path.join(output_path, n))` is `n ∈ existing`;
joining with the one fixed directory is injective on basenames). The
result is `none` when the photo is skipped as a duplicate, otherwise the
file name the copy/move primitive is invoked with. The search budget
`existing.length + 1` stands in for the source's unbounded `while`. -/
def resolve_destination (cfg : Config) (existing : List String)
    (photo_name : String) : Option String :=
  if cfg.skip_duplicates ∧ photo_name ∈ existing then none
  else if photo_name ∈ existing then
    let be := splitext photo_name
    let i := find_free_suffix existing (be.1 ++ cfg.duplicate_suffix) be.2
      (existing.length + 1) 1
    some (be.1 ++ cfg.duplicate_suffix ++ Nat.repr i ++ be.2)
  else some photo_name

example : splitext "a.jpg" = ("a", ".jpg") := by decide
example : splitext ".bashrc" = (".bashrc", "") := by decide
example : resolve_destination
    ⟨true, true, false, false, true, "%Y-%m-%d", "Unsortable", false, "_dup", true, true⟩
    ["a.jpg", "a_dup1.jpg"] "a.jpg" = some "a_dup2.jpg" := by decide

/-! ## PhotoProcessor: the per-photo pipeline (`process_photos`) -/

/-- `PhotoProcessor._validate_gps_coordinates`: accept only coordinates
inside the hardcoded continental-USA bounding box. -/
def validate_gps_coordinates : Option ℚ → Option ℚ → Bool
  | some latitude, some longitude =>
    decide (24 ≤ latitude ∧ latitude ≤ 49 ∧ -125 ≤ longitude ∧ longitude ≤ -66)
  | _, _ => false

/-- One input photo, described by what the collaborators return for it:
whether `extract_exif_data` produced an image, the coordinates and date
the extractor yields (its internal handlers already reduce errors to
`none`), and what `Geolocator.reverse_geocode` returns if it is called
(`none` models a geocoding failure, see `reverse_geocode`; `unidecode`
is the identity on the ASCII strings considered here). -/
structure PhotoIn where
  path : String
  exif_ok : Bool
  lat : Option ℚ
  lon : Option ℚ
  date : Option Date
  geo : Option String
deriving DecidableEq

/-- The mutable counters of `process_photos`. -/
structure PState where
  processed : Nat
  sortable : Nat
  unsortable : Nat
deriving DecidableEq

/-- One yielded progress tuple
`(processed, total, sortable, unsortable, photo_path)`. -/
structure Event where
  processed : Nat
  total : Nat
  sortable : Nat
  unsortable : Nat
  current : String
deriving DecidableEq

/-- The observable outcome of processing one photo: the counters
afterwards, the yielded event, how many geocode calls were made, and the
destination directory handed to `_copy_photo`/`_move_photo` (`none` when
no placement was attempted). -/
structure StepOut where
  st : PState
  ev : Event
  geocode_calls : Nat
  output_path : Option String
deriving DecidableEq

/-- The tail of the per-photo loop body once `output_path` and
`is_sortable` are known: place the photo (`_copy_photo`/`_move_photo`
catch their own errors, so they never raise), bump the counters, and
yield the updated tuple. -/
def finish_photo (total : Nat) (st : PState) (p : PhotoIn)
    (output_path : String) (is_sortable : Bool) (calls : Nat) : StepOut :=
  let st2 : PState :=
    { processed := st.processed + 1,
      sortable := st.sortable + (if is_sortable then 1 else 0),
      unsortable := st.unsortable + (if is_sortable then 0 else 1) }
  { st := st2,
    ev := ⟨st2.processed, total, st2.sortable, st2.unsortable, p.path⟩,
    geocode_calls := calls,
    output_path := some output_path }

/-- One iteration of the `for photo_path in photo_paths` loop of
`PhotoProcessor.process_photos`, with the source's three early exits:

* no EXIF data: `unsortable_photos += 1` and
  `yield processed_photos + 1, ...` *without* storing the incremented
  processed count, then `continue`;
* valid coordinates but `reverse_geocode` returned `None`: the call
  `self._apply_location_filters(None)` raises `AttributeError`
  (`None` has no `.split`), the per-photo `except` handler increments
  only `unsortable_photos` and yields the stale counters — no placement
  happens;
* otherwise the photo flows to `finish_photo`. -/
def process_one_photo (cfg : Config) (output_directory : String)
    (total : Nat) (st : PState) (p : PhotoIn) : StepOut :=
  if ¬ p.exif_ok then
    { st := { st with unsortable := st.unsortable + 1 },
      ev := ⟨st.processed + 1, total, st.sortable, st.unsortable + 1, p.path⟩,
      geocode_calls := 0,
      output_path := none }
  else if validate_gps_coordinates p.lat p.lon then
    match p.geo with
    | none =>
      { st := { st with unsortable := st.unsortable + 1 },
        ev := ⟨st.processed, total, st.sortable, st.unsortable + 1, p.path⟩,
        geocode_calls := 1,
        output_path := none }
    | some city_rgeo =>
      let city := apply_location_filters cfg city_rgeo
      if city ≠ "" then
        finish_photo total st p
          (create_output_path cfg output_directory city p.date) true 1
      else
        finish_photo total st p
          (create_unsortable_path cfg output_directory p.date) false 1
  else
    finish_photo total st p
      (create_unsortable_path cfg output_directory p.date) false 0

/-- The loop of `process_photos`: thread the counters through the photos
and collect the yielded events in order. -/
def run_photos (cfg : Config) (output_directory : String) (total : Nat)
    (st : PState) : List PhotoIn → PState × List Event
  | [] => (st, [])
  | p :: rest =>
    let o := process_one_photo cfg output_directory total st p
    let r := run_photos cfg output_directory total o.st rest
    (r.1, o.ev :: r.2)

/-- `PhotoProcessor.process_photos` on a batch: final counters and the
emitted progress events. -/
def process_photos (cfg : Config) (output_directory : String)
    (ps : List PhotoIn) : PState × List Event :=
  run_photos cfg output_directory ps.length ⟨0, 0, 0⟩ ps

/-! ## Concrete instances used by the claims -/

/-- The configuration of the end-to-end New York scenario:
`sort_by_location`, `sort_by_date` and `group_by_city` on, the other
grouping flags off, `date_format = %Y-%m-%d`, remaining options at their
`config.ini` defaults. -/
def nycConfig : Config :=
  { sort_by_location := true, sort_by_date := true,
    group_by_country := false, group_by_state := false,
    group_by_city := true, date_format := "%Y-%m-%d",
    unsortable_folder := "Unsortable", skip_duplicates := true,
    duplicate_suffix := "_duplicate", copy_files := true,
    cache_geocoding_results := true }

/-! ## Claim C6 -/

/-- Claim C6: for every degrees/minutes/seconds triple and hemisphere
reference, the conversion to decimal degrees is `d + m/60 + s/3600`,
negated exactly when the reference is `"S"` or `"W"` and unnegated
otherwise. -/
theorem convert_to_decimal_degrees_spec (d m s : ℚ) (ref : String) :
    convert_to_decimal_degrees d m s ref =
      if ref = "S" ∨ ref = "W" then -(d + m / 60 + s / 3600)
      else d + m / 60 + s / 3600 := by
  unfold convert_to_decimal_degrees
  rfl

/-! ## Claim C10 -/

/-- Claim C10: if either extracted GPS value is Python-falsy (a float
equal to `0.0`), `get_gps_coordinates` returns `(None, None)` even when
the other coordinate field is present and well-formed. -/
theorem get_gps_coordinates_falsy_none (use_gps : Bool) (img : Img)
    (la lo : GpsVal) (hx : img.has_exif = true)
    (hla : img.gps_latitude = some la) (hlo : img.gps_longitude = some lo)
    (hfalsy : la.truthy = false ∨ lo.truthy = false) :
    get_gps_coordinates use_gps (some img) = (none, none) := by
  unfold get_gps_coordinates
  cases use_gps with
  | false => simp
  | true =>
    rcases hfalsy with h | h <;> simp [hx, hla, hlo, h]

/-- Witness for C10: latitude `0.0` with a perfectly good longitude
`-74.0` is reported as "no coordinates at all". -/
theorem get_gps_coordinates_falsy_none_witness :
    get_gps_coordinates true
      (some ⟨true, some (.fl 0), some (.fl (-74)), some "N", some "W"⟩) =
      (none, none) :=
  get_gps_coordinates_falsy_none true
    ⟨true, some (.fl 0), some (.fl (-74)), some "N", some "W"⟩
    (.fl 0) (.fl (-74)) rfl rfl rfl (Or.inl (by decide))

/-! ## Claim C1 -/

/-- Counterexample to C1 as stated: with `group_by_city` the source
*reverses* the split parts, so the New York photo's destination is the
country-first `United States, New York, New York` directory, not the
locality-first `New York, New York, United States` one the claim names. -/
theorem nyc_destination_counterexample :
    apply_location_filters nycConfig "New York, New York, United States" =
      "United States, New York, New York" ∧
    create_output_path nycConfig "out"
      (apply_location_filters nycConfig "New York, New York, United States")
      (some ⟨2024, 3, 15⟩) ≠
      "out/New York, New York, United States/2024-03-15" := by
  decide

/-- Claim C1 as amended: for the photo geocoded to the parts
`(New York, New York, United States)` captured `2024-03-15`, with
`sort_by_location`, `sort_by_date`, `group_by_city` on, the resolved
destination directory is
`<output>/United States, New York, New York/2024-03-15` — the place-name
component is rendered country-first (full reversed hierarchy). -/
theorem nyc_destination_amended (output_directory : String) :
    create_output_path nycConfig output_directory
      (apply_location_filters nycConfig "New York, New York, United States")
      (some ⟨2024, 3, 15⟩) =
      joinPath (joinPath output_directory "United States, New York, New York")
        "2024-03-15" := by
  have h1 : apply_location_filters nycConfig
      "New York, New York, United States" =
      "United States, New York, New York" := by decide
  have h2 : strftime "%Y-%m-%d" ⟨2024, 3, 15⟩ = "2024-03-15" := by decide
  rw [h1]
  simp [create_output_path, nycConfig, h2]

/-! ## Claim C9 -/

/-- Claim C9: a photo whose coordinate is absent or fails the bounding-box
gate is routed to the unsortable directory — `<output>/<unsortable_folder>`
with a date subdirectory exactly when a capture date is present and
date-sorting is on — and no geocode call is made for it. -/
theorem invalid_coordinates_route_to_unsortable (cfg : Config)
    (output_directory : String) (total : Nat) (st : PState) (p : PhotoIn)
    (hex : p.exif_ok = true)
    (hinv : validate_gps_coordinates p.lat p.lon = false) :
    (process_one_photo cfg output_directory total st p).geocode_calls = 0 ∧
    (process_one_photo cfg output_directory total st p).output_path =
      some (create_unsortable_path cfg output_directory p.date) ∧
    create_unsortable_path cfg output_directory p.date =
      (match cfg.sort_by_date, p.date with
       | true, some d =>
         joinPath (joinPath output_directory cfg.unsortable_folder)
           (strftime cfg.date_format d)
       | _, _ => joinPath output_directory cfg.unsortable_folder) := by
  refine ⟨?_, ?_, rfl⟩ <;> simp [process_one_photo, hex, hinv, finish_photo]

/-- Witness for C9: the placeholder coordinate `(0.0, 0.0)` (outside the
bounding box) with capture date `2024-03-15` goes to
`out/Unsortable/2024-03-15`. -/
theorem invalid_coordinates_route_to_unsortable_witness :
    (process_one_photo nycConfig "out" 1 ⟨0, 0, 0⟩
      ⟨"p.jpg", true, some 0, some 0, some ⟨2024, 3, 15⟩, none⟩).geocode_calls
      = 0 ∧
    (process_one_photo nycConfig "out" 1 ⟨0, 0, 0⟩
      ⟨"p.jpg", true, some 0, some 0, some ⟨2024, 3, 15⟩, none⟩).output_path =
      some (create_unsortable_path nycConfig "out" (some ⟨2024, 3, 15⟩)) := by
  have h := invalid_coordinates_route_to_unsortable nycConfig "out" 1
    ⟨0, 0, 0⟩ ⟨"p.jpg", true, some 0, some 0, some ⟨2024, 3, 15⟩, none⟩
    rfl (by decide)
  exact ⟨h.1, h.2.1⟩

/-! ## Claim C2 -/

/-- A photo whose file yields no EXIF container
(`extract_exif_data` returns `None`). -/
def photoNoExif : PhotoIn := ⟨"a.jpg", false, none, none, none, none⟩

/-- A photo with valid in-box coordinates whose reverse geocoding fails
(backend error/timeout), so `reverse_geocode` returns `None`. -/
def photoGeoFail : PhotoIn := ⟨"b.jpg", true, some 40, some (-74), none, none⟩

/-- Claim C2 fails on the code: on the batch `[photoNoExif, photoGeoFail]`
the pipeline ends with `processed = 0` although both photos were handled
(total `2`, `unsortable = 2`), because the no-EXIF branch yields
`processed_photos + 1` without storing it and the exception branch never
increments `processed_photos`; the `processed` fields of the two emitted
events are `1` then `0`, so the counter stream is not even monotone. -/
theorem process_photos_miscounts :
    (process_photos nycConfig "out" [photoNoExif, photoGeoFail]).1 =
      ⟨0, 0, 2⟩ ∧
    ((process_photos nycConfig "out" [photoNoExif, photoGeoFail]).2.map
      Event.processed) = [1, 0] := by
  decide

/-! ## Claim C8 -/

/-- A photo with valid in-box coordinates whose reverse geocoding fails
(same situation as `photoGeoFail`; separate instance for claim C8). -/
def photoGeoFailB : PhotoIn := ⟨"c.jpg", true, some 40, some (-74), none, none⟩

/-- Claim C8 fails on the code: when the geocoding backend errors out,
`reverse_geocode` does return `None` without raising, but the photo is
then *not* placed as unsortable — `_apply_location_filters(None)` raises
`AttributeError`, the per-photo handler only increments the unsortable
counter, and no copy/move is attempted (`output_path = none`), while the
batch continues. -/
theorem geocode_failure_not_placed :
    (process_one_photo nycConfig "out" 1 ⟨0, 0, 0⟩ photoGeoFailB).output_path
      = none ∧
    (process_one_photo nycConfig "out" 1 ⟨0, 0, 0⟩ photoGeoFailB).st =
      ⟨0, 0, 1⟩ ∧
    (process_one_photo nycConfig "out" 1 ⟨0, 0, 0⟩ photoGeoFailB).geocode_calls
      = 1 ∧
    reverse_geocode (fun _ _ => 10000) 1 true (fun _ => none) []
      (40, -74) = ⟨none, [], 1⟩ := by
  decide

/-! ## Claim C3 -/

/-- Counterexample to C3 as stated: the `_save_cache` trace contains no
rename at all, and a crash right after the truncating `open` (after the
first operation) leaves the cache file empty — neither the old snapshot
`"old"` nor the new snapshot `"new"`. -/
theorem save_cache_not_atomic_counterexample :
    hasRename (save_cache "location_cache.json" "new") = false ∧
    diskAt "old" (save_cache "location_cache.json" "new") 1 ≠ "old" ∧
    diskAt "old" (save_cache "location_cache.json" "new") 1 ≠ "new" := by
  decide

/-- Claim C3 as amended: `_save_cache` opens the cache file itself for
truncating write and dumps the JSON directly — there is no
write-temp-then-rename step — so whenever the old and new snapshots are
non-empty there is a crash point at which the on-disk file is neither the
old complete state nor the new complete state. -/
theorem save_cache_not_atomic (cache_file old new : String)
    (hold : old ≠ "") (hnew : new ≠ "") :
    hasRename (save_cache cache_file new) = false ∧
    ∃ k, diskAt old (save_cache cache_file new) k ≠ old ∧
      diskAt old (save_cache cache_file new) k ≠ new := by
  refine ⟨rfl, 1, ?_, ?_⟩ <;>
    simpa [diskAt, save_cache, runFs] using fun h => by
      first
        | exact hold h.symm
        | exact hnew h.symm

/-- Witness for C3 (amended): with old snapshot `"old"` and new snapshot
`"new"` the crash point after the truncating open exhibits the partial
state. -/
theorem save_cache_not_atomic_witness :
    hasRename (save_cache "location_cache.json" "new") = false ∧
    ∃ k, diskAt "old" (save_cache "location_cache.json" "new") k ≠ "old" ∧
      diskAt "old" (save_cache "location_cache.json" "new") k ≠ "new" :=
  save_cache_not_atomic "location_cache.json" "old" "new" (by decide)
    (by decide)

/-! ## Claim C7 -/

/-- If some candidate index in the search window is free, the suffix
search returns an index whose candidate name is free. -/
theorem find_free_suffix_not_mem (existing : List String) (pre ext : String) :
    ∀ fuel i,
      (∃ j, i ≤ j ∧ j < i + fuel ∧ pre ++ Nat.repr j ++ ext ∉ existing) →
      pre ++ Nat.repr (find_free_suffix existing pre ext fuel i) ++ ext ∉
        existing := by
  intro fuel
  induction fuel with
  | zero =>
    intro i h
    rcases h with ⟨j, h1, h2, _⟩
    omega
  | succ fuel ih =>
    intro i h
    rcases h with ⟨j, h1, h2, h3⟩
    simp only [find_free_suffix]
    by_cases hm : pre ++ Nat.repr i ++ ext ∈ existing
    · rw [if_pos hm]
      have hji : j ≠ i := fun he => h3 (he ▸ hm)
      exact ih (i + 1) ⟨j, by omega, by omega, h3⟩
    · rw [if_neg hm]
      exact hm

/-- If the candidates `i, …, N` are all occupied and candidate `N + 1` is
free, the search starting at `i` with enough budget returns `N + 1`
(first-free-integer semantics of the source's `while` loop). -/
theorem find_free_suffix_least (existing : List String) (pre ext : String)
    (N : Nat) :
    ∀ fuel i, (∀ k, i ≤ k → k ≤ N → pre ++ Nat.repr k ++ ext ∈ existing) →
      pre ++ Nat.repr (N + 1) ++ ext ∉ existing →
      i ≤ N + 1 → N + 1 ≤ i + fuel →
      find_free_suffix existing pre ext fuel i = N + 1 := by
  intro fuel
  induction fuel with
  | zero =>
    intro i hocc hfree hi hfuel
    simp only [find_free_suffix]
    omega
  | succ fuel ih =>
    intro i hocc hfree hi hfuel
    simp only [find_free_suffix]
    by_cases hiN : i = N + 1
    · have hni : pre ++ Nat.repr i ++ ext ∉ existing := by
        rw [hiN]; exact hfree
      rw [if_neg hni]
      exact hiN
    · rw [if_pos (hocc i le_rfl (by omega))]
      exact ih (i + 1) (fun k hk1 hk2 => hocc k (by omega) hk2) hfree
        (by omega) (by omega)

/-- Claim C7: duplicate placement. (1) With `skip_duplicates` on, a
same-named destination file makes the photo skipped with no file
operation. (2) Whenever some candidate within the search window is free
(always true in reality, since the infinitely many suffixed names cannot
all be among the finitely many existing ones), the chosen destination
name never coincides with an existing file. (3) With `skip_duplicates`
off, if the suffixed siblings `1..N` all exist and sibling `N + 1` is
free, the chosen name is the one with suffix integer `N + 1`. -/
theorem resolve_destination_spec (cfg : Config) (existing : List String)
    (photo_name : String) :
    (cfg.skip_duplicates = true → photo_name ∈ existing →
      resolve_destination cfg existing photo_name = none) ∧
    ((∃ j ∈ List.range (existing.length + 1),
        candName cfg photo_name (j + 1) ∉ existing) →
      ∀ p, resolve_destination cfg existing photo_name = some p →
        p ∉ existing) ∧
    (∀ N, cfg.skip_duplicates = false → photo_name ∈ existing →
      (∀ i ∈ List.range N, candName cfg photo_name (i + 1) ∈ existing) →
      candName cfg photo_name (N + 1) ∉ existing → N ≤ existing.length →
      resolve_destination cfg existing photo_name =
        some (candName cfg photo_name (N + 1))) := by
  refine ⟨?_, ?_, ?_⟩
  · intro hskip hmem
    simp [resolve_destination, hskip, hmem]
  · intro hfree p hp
    by_cases h1 : cfg.skip_duplicates ∧ photo_name ∈ existing
    · simp [resolve_destination, h1] at hp
    · by_cases h2 : photo_name ∈ existing
      · simp [resolve_destination, h1, h2] at hp
        rcases hfree with ⟨j, hj, hjf⟩
        rw [List.mem_range] at hj
        have hnm := find_free_suffix_not_mem existing
          ((splitext photo_name).1 ++ cfg.duplicate_suffix)
          (splitext photo_name).2 (existing.length + 1) 1
          ⟨j + 1, by omega, by omega, by
            simpa [candName, String.append_assoc] using hjf⟩
        rw [← hp.2]
        simpa [String.append_assoc] using hnm
      · simp [resolve_destination, h1, h2] at hp
        rw [← hp]
        exact h2
  · intro N hskip hmem hocc hfree hlen
    have h1 : ¬ (cfg.skip_duplicates ∧ photo_name ∈ existing) := by
      simp [hskip]
    have hleast := find_free_suffix_least existing
      ((splitext photo_name).1 ++ cfg.duplicate_suffix)
      (splitext photo_name).2 N (existing.length + 1) 1
      (fun k hk1 hk2 => by
        have := hocc (k - 1) (by rw [List.mem_range]; omega)
        have hk : k - 1 + 1 = k := by omega
        rw [hk] at this
        simpa [candName, String.append_assoc] using this)
      (by simpa [candName, String.append_assoc] using hfree)
      (by omega) (by omega)
    simp [resolve_destination, h1, hmem, hleast, hskip, candName,
      String.append_assoc]

/-- The duplicate-scenario configuration of the spec's end-to-end
duplicate test: `skip_duplicates` off, suffix `_dup`. -/
def dupConfig : Config :=
  { nycConfig with skip_duplicates := false, duplicate_suffix := "_dup" }

/-- Witness for C7: with `skip_duplicates` on a same-named photo is
skipped; with it off and siblings `a_dup1.jpg`, `a_dup2.jpg` present the
chosen name is `a_dup3.jpg`, which collides with nothing. -/
theorem resolve_destination_spec_witness :
    resolve_destination nycConfig ["a.jpg"] "a.jpg" = none ∧
    resolve_destination dupConfig ["a.jpg", "a_dup1.jpg", "a_dup2.jpg"]
      "a.jpg" = some "a_dup3.jpg" ∧
    "a_dup3.jpg" ∉ ["a.jpg", "a_dup1.jpg", "a_dup2.jpg"] := by
  refine ⟨?_, ?_, by decide⟩
  · exact (resolve_destination_spec nycConfig ["a.jpg"] "a.jpg").1 rfl
      (by decide)
  · have h := (resolve_destination_spec dupConfig
      ["a.jpg", "a_dup1.jpg", "a_dup2.jpg"] "a.jpg").2.2 2 rfl (by decide)
      (by decide) (by decide) (by decide)
    have hc : candName dupConfig "a.jpg" (2 + 1) = "a_dup3.jpg" := by decide
    rw [h, hc]

/-! ## Cache-scan and dict lemmas (shared by claims C4 and C5) -/

/-- The proximity scan returns `none` exactly when no entry lies within
the threshold. -/
theorem is_cached_none_iff (dist : Coord → Coord → ℚ) (th : ℚ) (c : Coord)
    (cache : GeoCache) :
    is_cached_location_nearby dist th c cache = none ↔
      ∀ e ∈ cache, ¬ dist c e.1 ≤ th := by
  induction cache with
  | nil => simp [is_cached_location_nearby]
  | cons e rest ih =>
    obtain ⟨k, v⟩ := e
    simp only [is_cached_location_nearby]
    by_cases h : dist c k ≤ th
    · simp [h]
    · rw [if_neg h, ih]
      constructor
      · intro hr e he
        rcases List.mem_cons.mp he with rfl | hm
        · exact h
        · exact hr e hm
      · intro hall e he
        exact hall e (List.mem_cons_of_mem _ he)

/-- Entries that are out of range do not affect the scan of what follows
them. -/
theorem is_cached_append_left (dist : Coord → Coord → ℚ) (th : ℚ)
    (c : Coord) (l1 l2 : GeoCache) (h : ∀ e ∈ l1, ¬ dist c e.1 ≤ th) :
    is_cached_location_nearby dist th c (l1 ++ l2) =
      is_cached_location_nearby dist th c l2 := by
  induction l1 with
  | nil => rfl
  | cons e rest ih =>
    obtain ⟨k, v⟩ := e
    have hk : ¬ dist c k ≤ th := h (k, v) (List.mem_cons_self _ _)
    simp only [List.cons_append, is_cached_location_nearby, if_neg hk]
    exact ih fun e he => h e (List.mem_cons_of_mem _ he)

/-- A successful scan splits the cache at its first in-range entry. -/
theorem is_cached_split (dist : Coord → Coord → ℚ) (th : ℚ) (c : Coord)
    (cache : GeoCache) (s : String)
    (h : is_cached_location_nearby dist th c cache = some s) :
    ∃ l1 k l2, cache = l1 ++ (k, s) :: l2 ∧
      (∀ e ∈ l1, ¬ dist c e.1 ≤ th) ∧ dist c k ≤ th := by
  induction cache with
  | nil => simp [is_cached_location_nearby] at h
  | cons e rest ih =>
    obtain ⟨k0, v0⟩ := e
    simp only [is_cached_location_nearby] at h
    by_cases hd : dist c k0 ≤ th
    · rw [if_pos hd] at h
      obtain rfl : v0 = s := by injection h
      exact ⟨[], k0, rest, by simp, by simp, hd⟩
    · rw [if_neg hd] at h
      obtain ⟨l1, k, l2, hc, hl, hk⟩ := ih h
      refine ⟨(k0, v0) :: l1, k, l2, by rw [hc]; rfl, ?_, hk⟩
      intro e he
      rcases List.mem_cons.mp he with rfl | hm
      · exact hd
      · exact hl e hm

/-- If some entry is in range, the scan succeeds. -/
theorem is_cached_isSome (dist : Coord → Coord → ℚ) (th : ℚ) (c : Coord)
    (cache : GeoCache) (h : ∃ e ∈ cache, dist c e.1 ≤ th) :
    ∃ s, is_cached_location_nearby dist th c cache = some s := by
  induction cache with
  | nil => simp at h
  | cons e0 rest ih =>
    obtain ⟨k0, v0⟩ := e0
    simp only [is_cached_location_nearby]
    by_cases hd : dist c k0 ≤ th
    · exact ⟨v0, by rw [if_pos hd]⟩
    · rw [if_neg hd]
      apply ih
      rcases h with ⟨e, he, hde⟩
      rcases List.mem_cons.mp he with rfl | hm
      · exact absurd hde hd
      · exact ⟨e, hm, hde⟩

/-- Inserting a fresh key appends. -/
theorem dictInsert_of_forall_ne (k : Coord) (v : String) (cache : GeoCache)
    (h : ∀ e ∈ cache, e.1 ≠ k) :
    dictInsert k v cache = cache ++ [(k, v)] := by
  induction cache with
  | nil => rfl
  | cons e rest ih =>
    obtain ⟨k0, v0⟩ := e
    have hk : k0 ≠ k := h (k0, v0) (List.mem_cons_self _ _)
    simp only [dictInsert, if_neg hk, List.cons_append]
    rw [ih fun e he => h e (List.mem_cons_of_mem _ he)]

/-- Insertion passes over a prefix that does not contain the key. -/
theorem dictInsert_append_left (k : Coord) (v : String) (l1 l2 : GeoCache)
    (h : ∀ e ∈ l1, e.1 ≠ k) :
    dictInsert k v (l1 ++ l2) = l1 ++ dictInsert k v l2 := by
  induction l1 with
  | nil => rfl
  | cons e rest ih =>
    obtain ⟨k0, v0⟩ := e
    have hk : k0 ≠ k := h (k0, v0) (List.mem_cons_self _ _)
    simp only [List.cons_append, dictInsert, if_neg hk]
    exact congrArg (List.cons (k0, v0))
      (ih fun e he => h e (List.mem_cons_of_mem _ he))

/-- Re-inserting the same key-value pair changes nothing. -/
theorem dictInsert_idem (k : Coord) (v : String) (cache : GeoCache) :
    dictInsert k v (dictInsert k v cache) = dictInsert k v cache := by
  induction cache with
  | nil => simp [dictInsert]
  | cons e rest ih =>
    obtain ⟨k0, v0⟩ := e
    by_cases hk : k0 = k
    · simp [dictInsert, hk]
    · simp [dictInsert, hk, ih]

/-! ## Claim C4 -/

/-- A stand-in for `geopy`'s geodesic distance in the concrete runs:
zero between equal coordinates (as the geodesic distance is), huge
otherwise. -/
def distTest : Coord → Coord → ℚ := fun a b => if a = b then 0 else 10000

/-- A backend that always resolves (used to observe whether the cache
short-circuits it). -/
def backendTest : Coord → Option String := fun _ => some "Somewhere, USA"

/-- Counterexample to C4 as stated: a cached entry whose place name is
the empty string. The entry lies within the threshold (distance `0`),
yet `reverse_geocode` — which tests the scan result for Python
truthiness, and `""` is falsy — still performs a backend call and
overwrites the entry, instead of returning the cached name with zero
network calls and an unchanged cache. -/
theorem cached_hit_counterexample :
    distTest (40, -74) (((40 : ℚ), (-74 : ℚ))) ≤ 1 ∧
    (reverse_geocode distTest 1 true backendTest
      [(((40 : ℚ), (-74 : ℚ)), "")] (40, -74)).backend_calls = 1 ∧
    (reverse_geocode distTest 1 true backendTest
      [(((40 : ℚ), (-74 : ℚ)), "")] (40, -74)).cache ≠
      [(((40 : ℚ), (-74 : ℚ)), "")] := by
  decide

/-- Claim C4 as amended: when caching is enabled, every cached place
name is non-empty (which is the cache's own data-model invariant: the
geocoder stores only truthy names), and some cached entry lies within
the distance threshold, `resolve` returns that (first matching) entry's
place name with zero backend calls and an unchanged cache. -/
theorem cached_hit_no_backend (dist : Coord → Coord → ℚ) (th : ℚ)
    (backend : Coord → Option String) (cache : GeoCache) (c : Coord)
    (hne : ∀ e ∈ cache, e.2 ≠ "")
    (hhit : ∃ e ∈ cache, dist c e.1 ≤ th) :
    ∃ e ∈ cache, dist c e.1 ≤ th ∧
      reverse_geocode dist th true backend cache c =
        { res := some e.2, cache := cache, backend_calls := 0 } := by
  obtain ⟨s, hs⟩ := is_cached_isSome dist th c cache hhit
  obtain ⟨l1, k, l2, hcache, hl1, hk⟩ := is_cached_split dist th c cache s hs
  have hmem : (k, s) ∈ cache := by
    rw [hcache]
    exact List.mem_append_right _ (List.mem_cons_self _ _)
  have hse : s ≠ "" := hne (k, s) hmem
  exact ⟨(k, s), hmem, hk, by simp [reverse_geocode, hs, truthyStr, hse]⟩

/-- Witness for C4 (amended): one non-empty cached entry at the queried
coordinate short-circuits the backend. -/
theorem cached_hit_no_backend_witness :
    ∃ e ∈ [(((40 : ℚ), (-74 : ℚ)), "New York, New York, United States")],
      distTest (40, -74) e.1 ≤ 1 ∧
      reverse_geocode distTest 1 true backendTest
        [(((40 : ℚ), (-74 : ℚ)), "New York, New York, United States")]
        (40, -74) =
        { res := some e.2,
          cache :=
            [(((40 : ℚ), (-74 : ℚ)), "New York, New York, United States")],
          backend_calls := 0 } :=
  cached_hit_no_backend distTest 1 backendTest
    [(((40 : ℚ), (-74 : ℚ)), "New York, New York, United States")]
    (40, -74) (by decide) (by decide)

/-! ## Claim C5 -/

/-- Claim C5: resolving the same coordinate twice with caching enabled
and a non-negative threshold is idempotent — the second resolve returns
the same place name, and the cache has the same number of entries after
the second resolve as after the first. (`dist` abstracts the geodesic
distance; `dist c c = 0` is the property of it the proof needs. The
backend is a function of the coordinate, hence deterministic across the
two calls.) -/
theorem reverse_geocode_idempotent (dist : Coord → Coord → ℚ) (th : ℚ)
    (backend : Coord → Option String) (cache : GeoCache) (c : Coord)
    (hth : 0 ≤ th) (hzero : dist c c = 0) :
    (reverse_geocode dist th true backend
        (reverse_geocode dist th true backend cache c).cache c).res =
      (reverse_geocode dist th true backend cache c).res ∧
    (reverse_geocode dist th true backend
        (reverse_geocode dist th true backend cache c).cache c).cache.length
      = (reverse_geocode dist th true backend cache c).cache.length := by
  cases hscan : is_cached_location_nearby dist th c cache with
  | none =>
    have hnone : ∀ e ∈ cache, ¬ dist c e.1 ≤ th :=
      (is_cached_none_iff dist th c cache).mp hscan
    have hkey : ∀ e ∈ cache, e.1 ≠ c := fun e he heq =>
      hnone e he (by rw [heq, hzero]; exact hth)
    cases hb : backend c with
    | none => simp [reverse_geocode, hscan, hb, truthyStr]
    | some v =>
      by_cases hv : v = ""
      · subst hv
        simp [reverse_geocode, hscan, hb, truthyStr]
      · have hins : dictInsert c v cache = cache ++ [(c, v)] :=
          dictInsert_of_forall_ne c v cache hkey
        have hscan2 : is_cached_location_nearby dist th c
            (cache ++ [(c, v)]) = some v := by
          rw [is_cached_append_left dist th c cache _ hnone]
          simp [is_cached_location_nearby, hzero, hth]
        simp [reverse_geocode, hscan, hb, hv, truthyStr, hins, hscan2]
  | some s =>
    by_cases hs : s = ""
    · subst hs
      obtain ⟨l1, k0, l2, hcache, hl1, hk0⟩ :=
        is_cached_split dist th c cache "" hscan
      subst hcache
      have hl1k : ∀ e ∈ l1, e.1 ≠ c := fun e he heq =>
        hl1 e he (by rw [heq, hzero]; exact hth)
      cases hb : backend c with
      | none => simp [reverse_geocode, hscan, hb, truthyStr]
      | some v =>
        by_cases hv : v = ""
        · subst hv
          simp [reverse_geocode, hscan, hb, truthyStr]
        · by_cases hk0c : k0 = c
          · have hins : dictInsert c v (l1 ++ (k0, "") :: l2) =
                l1 ++ (k0, v) :: l2 := by
              rw [dictInsert_append_left c v l1 _ hl1k]
              simp [dictInsert, hk0c]
            have hscan2 : is_cached_location_nearby dist th c
                (l1 ++ (k0, v) :: l2) = some v := by
              rw [is_cached_append_left dist th c l1 _ hl1]
              simp [is_cached_location_nearby, hk0]
            simp [reverse_geocode, hscan, hb, hv, truthyStr, hins, hscan2]
          · have hins : dictInsert c v (l1 ++ (k0, "") :: l2) =
                l1 ++ (k0, "") :: dictInsert c v l2 := by
              rw [dictInsert_append_left c v l1 _ hl1k]
              simp [dictInsert, hk0c]
            have hscan2 : is_cached_location_nearby dist th c
                (l1 ++ (k0, "") :: dictInsert c v l2) = some "" := by
              rw [is_cached_append_left dist th c l1 _ hl1]
              simp [is_cached_location_nearby, hk0]
            have hins2 : dictInsert c v
                (l1 ++ (k0, "") :: dictInsert c v l2) =
                l1 ++ (k0, "") :: dictInsert c v l2 := by
              rw [dictInsert_append_left c v l1 _ hl1k]
              simp [dictInsert, hk0c, dictInsert_idem]
            simp [reverse_geocode, hscan, hb, hv, truthyStr, hins, hscan2,
              hins2]
    · simp [reverse_geocode, hscan, hs, truthyStr]

/-- Witness for C5: querying `(40, -74)` twice against an initially empty
cache — the second resolve hits the entry the first one stored. -/
theorem reverse_geocode_idempotent_witness :
    (reverse_geocode distTest 1 true backendTest
        (reverse_geocode distTest 1 true backendTest [] (40, -74)).cache
        (40, -74)).res =
      (reverse_geocode distTest 1 true backendTest [] (40, -74)).res ∧
    (reverse_geocode distTest 1 true backendTest
        (reverse_geocode distTest 1 true backendTest [] (40, -74)).cache
        (40, -74)).cache.length =
      (reverse_geocode distTest 1 true backendTest [] (40, -74)).cache.length
    :=
  reverse_geocode_idempotent distTest 1 backendTest [] (40, -74) (by decide)
    (by decide)

end ExifPhotoSorter
